import Mathlib

/-
  Verification development for the trust-and-routing core of the
  packet-handling forwarder (packages `gateway` and `forwarder`).

  The Go sources are shallowly embedded:
  * bytes are `Nat` values (each in 0..255 where it matters),
    byte slices/arrays are `List Nat`;
  * `lorawan.EUI64` (8 bytes) and the 32-byte registry id are `List Nat`;
  * Go maps are functions `List Nat → Option Gateway`, insertion overwrites;
  * external handles (`*ecdsa.PrivateKey`, `*ecdsa.PublicKey`,
    `common.Address`) are opaque `Nat` values;
  * fallible operations return `Option` / `Except`;
  * external library functions (SHA-256, secp256k1 compression, the
    uncompressed encoding) are universally quantified function parameters,
    since the claims under verification do not depend on their internals.
-/

/-- `lorawan.EUI64`, an 8-byte identifier, modelled as a byte list. -/
abbrev EUI64 := List Nat

/-- `lorawan.NetID`, a 3-byte identifier, modelled as a byte list. -/
abbrev NetID := List Nat

/-- Go's `var id [N]byte; copy(id[:], b)` for `N = 32`: the first 32 bytes
of `b`, zero-padded on the right when `b` is shorter than 32 bytes. -/
def setBytes32 (b : List Nat) : List Nat :=
  b.take 32 ++ List.replicate (32 - b.length) 0

/-- Embedding of `gateway.Gateway` (src/gateway/gateway.go).
`PublicKeyBytes` is a nil-able Go slice, hence `Option`; the key handles
and the owner address are opaque values. -/
structure Gateway where
  LocalGatewayID : EUI64
  NetworkGatewayID : EUI64
  PrivateKey : Nat
  PublicKey : Nat
  PublicKeyBytes : Option (List Nat)
  CompressedPublicKeyBytes : List Nat
  Owner : Nat
  deriving DecidableEq

/-- `Gateway.ID` (src/gateway/gateway.go): the registry identifier,
`CompressedPublicKeyBytes` copied into a 32-byte array. -/
def Gateway.ID (gw : Gateway) : List Nat :=
  setBytes32 gw.CompressedPublicKeyBytes

/-- `Gateway.CompressedPubKeyBytes` (src/gateway/gateway.go): re-adds the
constant prefix byte `0x02` in front of the stored compressed key bytes. -/
def Gateway.CompressedPubKeyBytes (gw : Gateway) : List Nat :=
  2 :: gw.CompressedPublicKeyBytes

section IdentityDeriver

/- External cryptographic primitives, taken as parameters:
   `sha256Sum` models `crypto/sha256.Sum256` (a 32-byte digest),
   `CompressPubkey` models `crypto.CompressPubkey` (33 bytes: one parity
   byte 0x02/0x03 followed by the 32-byte X coordinate),
   `FromECDSAPub` models `crypto.FromECDSAPub` (uncompressed encoding),
   `publicKeyOf` models the `priv.PublicKey` field access. -/
variable (sha256Sum : List Nat → List Nat)
variable (CompressPubkey : Nat → List Nat)
variable (FromECDSAPub : Nat → List Nat)
variable (publicKeyOf : Nat → Nat)

/-- `CalculateCompressedPublicKeyBytes` (src/gateway/gateway.go):
`crypto.CompressPubkey(pub)[1:]` — the compressed key with its leading
parity byte dropped. -/
def CalculateCompressedPublicKeyBytes (pub : Nat) : List Nat :=
  (CompressPubkey pub).drop 1

/-- Modelled from the spec: `utils.BytesToGatewayID` (package
`packet-handling/utils`, not under src/) copies the given bytes into a
`lorawan.EUI64`; per the spec, `networkID = firstEightBytes(hash(...))`. -/
def BytesToGatewayID (b : List Nat) : EUI64 :=
  b.take 8

/-- `CalculatePublicKeyBytes` (src/gateway/gateway.go):
`crypto.FromECDSAPub(pub)`. -/
def CalculatePublicKeyBytes (pub : Nat) : List Nat :=
  FromECDSAPub pub

/-- `CalculateNetworkGatewayID` (src/gateway/gateway.go): SHA-256 of the
parity-stripped compressed public key, first eight digest bytes. -/
def CalculateNetworkGatewayID (priv : Nat) : EUI64 :=
  BytesToGatewayID ((sha256Sum (CalculateCompressedPublicKeyBytes CompressPubkey (publicKeyOf priv))).take 8)

/-- `NewGateway` (src/gateway/gateway.go). -/
def NewGateway (localGatewayID : EUI64) (priv : Nat) : Gateway :=
  { LocalGatewayID := localGatewayID
    NetworkGatewayID := CalculateNetworkGatewayID sha256Sum CompressPubkey publicKeyOf priv
    PrivateKey := priv
    PublicKey := publicKeyOf priv
    PublicKeyBytes := some (CalculatePublicKeyBytes FromECDSAPub (publicKeyOf priv))
    CompressedPublicKeyBytes := CalculateCompressedPublicKeyBytes CompressPubkey (publicKeyOf priv)
    Owner := 0 }

/-- `GenerateNewGateway` (src/gateway/gateway.go). The fresh key produced
by `GeneratePrivateKey` (external randomness) is passed explicitly as
`priv`; the struct literal in the source sets every field except
`PublicKeyBytes`, which is left at its nil zero value. -/
def GenerateNewGateway (localID : EUI64) (priv : Nat) : Gateway :=
  { LocalGatewayID := localID
    NetworkGatewayID := CalculateNetworkGatewayID sha256Sum CompressPubkey publicKeyOf priv
    PrivateKey := priv
    PublicKey := publicKeyOf priv
    PublicKeyBytes := none
    CompressedPublicKeyBytes := CalculateCompressedPublicKeyBytes CompressPubkey (publicKeyOf priv)
    Owner := 0 }

/-- Spec-side definition (§4.1), written from the spec's words:
`networkID = firstEightBytes(hash(compressedPublicKeyWithoutParityByte))`. -/
def specNetworkID (priv : Nat) : EUI64 :=
  (sha256Sum ((CompressPubkey (publicKeyOf priv)).drop 1)).take 8

/-- Spec-side definition (§4.1), written from the spec's words:
`registryID = compressedPublicKeyWithoutParityByte` treated as a 32-byte
value (zero-padded/truncated to fit). -/
def specRegistryID (priv : Nat) : List Nat :=
  let stripped := (CompressPubkey (publicKeyOf priv)).drop 1
  stripped.take 32 ++ List.replicate (32 - stripped.length) 0

end IdentityDeriver

/-! ## Gateway trust building (src/forwarder/utils.go) -/

/-- The fields of a gateway-registry record the trust-build logic reads
(`rgw.AntennaGain`, `rgw.Owner`); the remaining fields (location, altitude,
frequency plan) are consulted only for log output and are elided. -/
structure RegistryEntry where
  Owner : Nat
  AntennaGain : Nat
  deriving DecidableEq

/-- A Go `map[lorawan.EUI64]*gateway.Gateway`, as a lookup function. -/
abbrev GwMap := EUI64 → Option Gateway

/-- The empty Go map. -/
def emptyGwMap : GwMap := fun _ => none

/-- Go map insertion `m[k] = gw`: overwrites any previous value at `k`. -/
def mapInsert (m : GwMap) (k : EUI64) (gw : Gateway) : GwMap :=
  fun q => if q = k then some gw else m q

/-- The gateway registry contract behind
`gateway_registry.NewGatewayRegistry(...)`, modelled as a lookup from the
32-byte gateway id to the registry record; `none` models a failed
`registry.Gateways(nil, id)` call. -/
abbrev GatewayRegistry := List Nat → Option RegistryEntry

/-- The `for _, gateway := range store.Gateways()` loop of
`acceptOnlyOnboardedAndRegistryGateways` (src/forwarder/utils.go):
a failed registry lookup skips the gateway (`continue`); a non-zero
`AntennaGain` copies the registry owner onto the gateway and inserts it
into both trust maps; a zero `AntennaGain` only logs a warning. -/
def acceptLoop (registry : GatewayRegistry) :
    List Gateway → GwMap → GwMap → GwMap × GwMap
  | [], byLocal, byNetwork => (byLocal, byNetwork)
  | gw :: rest, byLocal, byNetwork =>
    match registry gw.ID with
    | none => acceptLoop registry rest byLocal byNetwork
    | some rgw =>
      if rgw.AntennaGain ≠ 0 then
        let gw2 := { gw with Owner := rgw.Owner }
        acceptLoop registry rest
          (mapInsert byLocal gw2.LocalGatewayID gw2)
          (mapInsert byNetwork gw2.NetworkGatewayID gw2)
      else
        acceptLoop registry rest byLocal byNetwork

/-- `acceptOnlyOnboardedAndRegistryGateways` (src/forwarder/utils.go).
The blockchain dial and registry-binding instantiation are external; the
registry contract reached through them is the `registry` parameter and the
store's gateway list is `store`. -/
def acceptOnlyOnboardedAndRegistryGateways (registry : GatewayRegistry)
    (store : List Gateway) : GwMap × GwMap :=
  acceptLoop registry store emptyGwMap emptyGwMap

/-- The open-policy loop of `onboardedAndRegisteredGateways`
(src/forwarder/utils.go): every store gateway is inserted into both maps. -/
def openLoop : List Gateway → GwMap → GwMap → GwMap × GwMap
  | [], byLocal, byNetwork => (byLocal, byNetwork)
  | gw :: rest, byLocal, byNetwork =>
    openLoop rest
      (mapInsert byLocal gw.LocalGatewayID gw)
      (mapInsert byNetwork gw.NetworkGatewayID gw)

/-- `onboardedAndRegisteredGateways` (src/forwarder/utils.go).
`registryAddress = none` models a configuration without
`cfg.Forwarder.Gateways.RegistryAddress` (the open trust policy);
`some registry` models a configured registry contract address together
with the registry reachable at it. -/
def onboardedAndRegisteredGateways (registryAddress : Option GatewayRegistry)
    (store : List Gateway) : GwMap × GwMap :=
  match registryAddress with
  | none => openLoop store emptyGwMap emptyGwMap
  | some registry => acceptOnlyOnboardedAndRegistryGateways registry store

/-! ## NetID decoding (src/forwarder/utils.go) -/

/-- `binary.BigEndian.PutUint32` into a `[4]byte` array; the argument is
reduced mod 2^32 as by the Go `uint32` type. -/
def putUint32BE (v : Nat) : List Nat :=
  let w := v % 4294967296
  [w / 16777216 % 256, w / 65536 % 256, w / 256 % 256, w % 256]

/-- `binary.LittleEndian.PutUint32` into a `[4]byte` array; the argument is
reduced mod 2^32 as by the Go `uint32` type. -/
def putUint32LE (v : Nat) : List Nat :=
  let w := v % 4294967296
  [w % 256, w / 256 % 256, w / 65536 % 256, w / 16777216 % 256]

/-- The on-chain source's NetID decoding (`fetchRoutersFromChain`,
src/forwarder/utils.go): `binary.BigEndian.PutUint32(netid[:],
uint32(id.Uint64()))` followed by `lorawan.NetID{netid[1], netid[2],
netid[3]}`. -/
def chainNetID (v : Nat) : NetID :=
  let netid := putUint32BE v
  [netid.getD 1 0, netid.getD 2 0, netid.getD 3 0]

/-- The HTTP source's NetID decoding (`fetchRoutersFromThingsIXAPI`,
src/forwarder/utils.go): `binary.LittleEndian.PutUint32(netid[:], id)`
followed by `lorawan.NetID{netid[0], netid[1], netid[2]}`. -/
def httpNetID (v : Nat) : NetID :=
  let netid := putUint32LE v
  [netid.getD 0 0, netid.getD 1 0, netid.getD 2 0]

/-! ## Router table, on-chain source (src/forwarder/utils.go) -/

/-- One router record as returned by the router registry contract's paged
read (`registry.RoutersPaged`): id, endpoint, owner and the raw network
ids (`*big.Int` values, consumed through `.Uint64()`). -/
structure ChainRouterEntry where
  Id : List Nat
  Endpoint : String
  Owner : Nat
  Networks : List Nat
  deriving DecidableEq

/-- The forwarder's `Router` record, modelled from the spec (§3) as the
data `NewRouter(r.Id, r.Endpoint, false, netids, r.Owner, accounter)`
is invoked with; the accounting flag and accounter collaborator are
external and carry no routing data. -/
structure Router where
  Id : List Nat
  Endpoint : String
  NetIDs : List NetID
  Owner : Nat
  deriving DecidableEq

/-- The conversion applied to each fetched on-chain entry in
`fetchRoutersFromChain`: decode every raw network id with the big-endian
`chainNetID` decoding and build the router record. -/
def convertChainEntry (r : ChainRouterEntry) : Router :=
  { Id := r.Id
    Endpoint := r.Endpoint
    NetIDs := r.Networks.map chainNetID
    Owner := r.Owner }

/-- The router registry contract behind
`router_registry.NewRouterRegistryCaller`, modelled as the full ordered
list of registered routers; `RoutersPaged(start, stop)` returns the
entries with indices in `[start, stop)`, clamped to the registered count. -/
def RoutersPaged (reg : List ChainRouterEntry) (start stop : Nat) :
    List ChainRouterEntry :=
  (reg.drop start).take (stop - start)

/-- `pageSize` in `fetchRoutersFromChain` (src/forwarder/utils.go). -/
def pageSize : Nat := 50

/-- The paging loop of `fetchRoutersFromChain` (src/forwarder/utils.go),
verbatim: `for i := int64(0); i*pageSize < routerCount; i += pageSize`
fetching `RoutersPaged(i, i+pageSize)` and appending the converted
entries. `count` is `routerCount` as reported by `registry.RouterCount`. -/
def fetchLoop (reg : List ChainRouterEntry) (count i : Nat) : List Router :=
  if i * pageSize < count then
    (RoutersPaged reg i (i + pageSize)).map convertChainEntry
      ++ fetchLoop reg count (i + pageSize)
  else
    []
termination_by count - i
decreasing_by
  simp only [pageSize] at *
  omega

/-- The refresh closure returned by `fetchRoutersFromChain`
(src/forwarder/utils.go), specialised to a successful cycle: the dial,
head query and count query succeeded and the registry (pinned at the
confirmed block) exposes the entry list `reg`, whose length is the
reported `routerCount`. -/
def fetchRoutersFromChain (reg : List ChainRouterEntry) : List Router :=
  fetchLoop reg reg.length 0

/-! ## RPC dialing (src/forwarder/utils.go) -/

/-- The configuration fields the embedded functions consume:
`cfg.BlockChain.Polygon.ChainID`. -/
structure Config where
  ChainID : Nat
  deriving DecidableEq

/-- The observable behaviour of the RPC endpoint during `dialRPCNode`:
whether `ethclient.DialContext` succeeds, and the outcome of the
`client.ChainID` query (`none` models a failed query). -/
structure RPCNode where
  dialOk : Bool
  chainIDResult : Option Nat
  deriving DecidableEq

/-- The outcome of `dialRPCNode`: the returned value (a client handle or
an error) and whether an RPC client handle remains open when the function
returns. -/
structure DialOutcome where
  result : Except String Unit
  clientOpen : Bool

/-- `dialRPCNode` (src/forwarder/utils.go). Branch by branch:
dial failure returns the wrapped dial error (no client exists);
a failed `client.ChainID` query calls `client.Close()` and returns an
error (`clientOpen := false`); a chain-id mismatch returns an error
without any `client.Close()` call (`clientOpen := true`);
on success the open client is returned to the caller. -/
def dialRPCNode (cfg : Config) (node : RPCNode) : DialOutcome :=
  if node.dialOk = false then
    { result := Except.error "unable to dial RPC node", clientOpen := false }
  else
    match node.chainIDResult with
    | none =>
      { result := Except.error "unable to determine if dial RPC node on the correct network"
        clientOpen := false }
    | some chainID =>
      if chainID ≠ cfg.ChainID then
        { result := Except.error "RPC node connected to wrong chain"
          clientOpen := true }
      else
        { result := Except.ok (), clientOpen := true }

/-! ## Router table, HTTP snapshot source (src/forwarder/utils.go) -/

/-- One hex digit, as accepted by Go's `encoding/hex`. -/
def hexDigit (c : Char) : Option Nat :=
  if '0' ≤ c ∧ c ≤ '9' then some (c.toNat - 48)
  else if 'a' ≤ c ∧ c ≤ 'f' then some (c.toNat - 87)
  else if 'A' ≤ c ∧ c ≤ 'F' then some (c.toNat - 55)
  else none

/-- Go's `hex.DecodeString` on a character list: two hex digits per output
byte; an odd-length input or a non-hex character is an error (`none`). -/
def hexDecodeChars : List Char → Option (List Nat)
  | [] => some []
  | [_] => none
  | c1 :: c2 :: rest =>
    match hexDigit c1, hexDigit c2, hexDecodeChars rest with
    | some hi, some lo, some bs => some ((hi * 16 + lo) :: bs)
    | _, _, _ => none

/-- Go's `hex.DecodeString` (the code only distinguishes success from
error, so the partial bytes Go also returns on error are dropped). -/
def hexDecodeString (s : String) : Option (List Nat) :=
  hexDecodeChars s.data

/-- One router entry of the decoded ThingsIX snapshot JSON document
(`fetchRoutersFromThingsIXAPI`, src/forwarder/utils.go). -/
structure SnapshotRouter where
  Endpoint : String
  ID : String
  Owner : Nat
  Networks : List Nat
  deriving DecidableEq

/-- The decoded ThingsIX snapshot JSON document
(`fetchRoutersFromThingsIXAPI`, src/forwarder/utils.go). -/
structure Snapshot where
  BlockNumber : Nat
  ChainID : Nat
  Routers : List SnapshotRouter
  deriving DecidableEq

/-- The per-entry conversion of `fetchRoutersFromThingsIXAPI`: the Go loop
writes into a slice pre-allocated with `make([]*Router,
len(snapshot.Routers))` and `continue`s on a hex-decode failure, so a
malformed id leaves the nil zero value (`none`) at that index; a
well-formed id yields the router built from the 32-byte-copied id, the
endpoint, the little-endian-decoded NetIDs and the owner. -/
def convertSnapshotRouter (r : SnapshotRouter) : Option Router :=
  match hexDecodeString r.ID with
  | none => none
  | some rID =>
    some { Id := setBytes32 rID
           Endpoint := r.Endpoint
           NetIDs := r.Networks.map httpNetID
           Owner := r.Owner }

/-- The refresh closure returned by `fetchRoutersFromThingsIXAPI`
(src/forwarder/utils.go), specialised to a fetch whose HTTP GET and JSON
decode succeeded with document `snapshot`: a chain-id mismatch is an
error; otherwise the returned slice has one (nil-able) slot per snapshot
entry. -/
def fetchRoutersFromThingsIXAPI (cfg : Config) (snapshot : Snapshot) :
    Except String (List (Option Router)) :=
  if snapshot.ChainID ≠ cfg.ChainID then
    Except.error "router snapshot from wrong chain"
  else
    Except.ok (snapshot.Routers.map convertSnapshotRouter)

/-! ## Proof machinery -/

/-- Generic single-map insertion loop: both trust-build loops project,
component-wise, to `mapLoop` with the appropriate key function and
admission function (`accept gw = none` means `gw` is skipped; `some gw2`
means `gw2` is inserted under `key gw2`). -/
def mapLoop (key : Gateway → EUI64) (accept : Gateway → Option Gateway) :
    List Gateway → GwMap → GwMap
  | [], m => m
  | gw :: rest, m =>
    match accept gw with
    | none => mapLoop key accept rest m
    | some gw2 => mapLoop key accept rest (mapInsert m (key gw2) gw2)

/-- The admission function of the registry trust policy: skip on lookup
failure, admit the owner-updated gateway on non-zero antenna gain. -/
def acceptOf (registry : GatewayRegistry) (gw : Gateway) : Option Gateway :=
  match registry gw.ID with
  | none => none
  | some rgw =>
    if rgw.AntennaGain ≠ 0 then some { gw with Owner := rgw.Owner } else none


/-! ## Concrete instances used in counterexamples and witnesses -/

def chainRegistry60 : List ChainRouterEntry :=
  List.replicate 60 { Id := [1], Endpoint := "r", Owner := 0, Networks := [1] }

def snapshot5 : Snapshot :=
  { BlockNumber := 10
    ChainID := 137
    Routers :=
      [ { Endpoint := "r0", ID := "00", Owner := 0, Networks := [1] }
      , { Endpoint := "r1", ID := "01", Owner := 1, Networks := [2] }
      , { Endpoint := "r2", ID := "zz", Owner := 2, Networks := [3] }
      , { Endpoint := "r3", ID := "03", Owner := 3, Networks := [4] }
      , { Endpoint := "r4", ID := "04", Owner := 4, Networks := [5] } ] }

def gwA : Gateway :=
  { LocalGatewayID := [1], NetworkGatewayID := [7], PrivateKey := 1, PublicKey := 1
    PublicKeyBytes := none, CompressedPublicKeyBytes := [1], Owner := 0 }

def gwB : Gateway :=
  { LocalGatewayID := [2], NetworkGatewayID := [7], PrivateKey := 2, PublicKey := 2
    PublicKeyBytes := none, CompressedPublicKeyBytes := [2], Owner := 0 }

def gwE : Gateway :=
  { LocalGatewayID := [2], NetworkGatewayID := [8], PrivateKey := 2, PublicKey := 2
    PublicKeyBytes := none, CompressedPublicKeyBytes := [2], Owner := 0 }

def gwC : Gateway :=
  { LocalGatewayID := [3], NetworkGatewayID := [9], PrivateKey := 3, PublicKey := 3
    PublicKeyBytes := none, CompressedPublicKeyBytes := [3], Owner := 0 }

def regAllGain5 : GatewayRegistry := fun _ => some { Owner := 9, AntennaGain := 5 }

def regGain5ExceptC : GatewayRegistry :=
  fun k => if k = gwC.ID then none else some { Owner := 9, AntennaGain := 5 }

/-! ## Lemmas: trust-loop projections and map characterisation -/

theorem acceptLoop_fst (registry : GatewayRegistry) :
    ∀ (gws : List Gateway) (l n : GwMap),
      (acceptLoop registry gws l n).1
        = mapLoop (fun g => g.LocalGatewayID) (acceptOf registry) gws l := by
  intro gws
  induction gws with
  | nil => intro l n; rfl
  | cons gw rest ih =>
    intro l n
    simp only [acceptLoop, mapLoop, acceptOf]
    cases registry gw.ID with
    | none => exact ih l n
    | some rgw =>
      by_cases h : rgw.AntennaGain = 0
      · simp [h, ih]
      · simp [h, ih]

theorem acceptLoop_snd (registry : GatewayRegistry) :
    ∀ (gws : List Gateway) (l n : GwMap),
      (acceptLoop registry gws l n).2
        = mapLoop (fun g => g.NetworkGatewayID) (acceptOf registry) gws n := by
  intro gws
  induction gws with
  | nil => intro l n; rfl
  | cons gw rest ih =>
    intro l n
    simp only [acceptLoop, mapLoop, acceptOf]
    cases registry gw.ID with
    | none => exact ih l n
    | some rgw =>
      by_cases h : rgw.AntennaGain = 0
      · simp [h, ih]
      · simp [h, ih]

theorem openLoop_fst :
    ∀ (gws : List Gateway) (l n : GwMap),
      (openLoop gws l n).1 = mapLoop (fun g => g.LocalGatewayID) some gws l := by
  intro gws
  induction gws with
  | nil => intro l n; rfl
  | cons gw rest ih =>
    intro l n
    simp only [openLoop, mapLoop]
    exact ih _ _

theorem openLoop_snd :
    ∀ (gws : List Gateway) (l n : GwMap),
      (openLoop gws l n).2 = mapLoop (fun g => g.NetworkGatewayID) some gws n := by
  intro gws
  induction gws with
  | nil => intro l n; rfl
  | cons gw rest ih =>
    intro l n
    simp only [openLoop, mapLoop]
    exact ih _ _

theorem mapLoop_preserve (key : Gateway → EUI64) (accept : Gateway → Option Gateway) :
    ∀ (gws : List Gateway) (m : GwMap) (k : EUI64),
      (∀ g ∈ gws, ∀ g2, accept g = some g2 → key g2 ≠ k) →
      mapLoop key accept gws m k = m k := by
  intro gws
  induction gws with
  | nil => intro m k _; rfl
  | cons gw rest ih =>
    intro m k hk
    simp only [mapLoop]
    cases hacc : accept gw with
    | none => exact ih m k (fun g hg => hk g (List.mem_cons_of_mem _ hg))
    | some g2 =>
      show mapLoop key accept rest (mapInsert m (key g2) g2) k = m k
      rw [ih _ k (fun g hg => hk g (List.mem_cons_of_mem _ hg))]
      have hne : key g2 ≠ k := hk gw (List.mem_cons_self _ _) g2 hacc
      simp only [mapInsert]
      rw [if_neg (fun heq => hne heq.symm)]

theorem mapLoop_stable (key : Gateway → EUI64) (accept : Gateway → Option Gateway) :
    ∀ (gws : List Gateway) (m : GwMap) (k : EUI64) (v : Gateway),
      (∀ g ∈ gws, ∀ g2, accept g = some g2 → key g2 = k → g2 = v) →
      m k = some v →
      mapLoop key accept gws m k = some v := by
  intro gws
  induction gws with
  | nil => intro m k v _ hm; exact hm
  | cons gw rest ih =>
    intro m k v hk hm
    simp only [mapLoop]
    cases hacc : accept gw with
    | none => exact ih m k v (fun g hg => hk g (List.mem_cons_of_mem _ hg)) hm
    | some g2 =>
      show mapLoop key accept rest (mapInsert m (key g2) g2) k = some v
      refine ih _ k v (fun g hg => hk g (List.mem_cons_of_mem _ hg)) ?_
      by_cases hkey : key g2 = k
      · have hv : g2 = v := hk gw (List.mem_cons_self _ _) g2 hacc hkey
        subst hv
        simp [mapInsert, hkey]
      · simp only [mapInsert]
        rw [if_neg (fun heq => hkey heq.symm)]
        exact hm

theorem mapLoop_mem (key : Gateway → EUI64) (accept : Gateway → Option Gateway) :
    ∀ (gws : List Gateway) (m : GwMap) (g g2 : Gateway),
      g ∈ gws → accept g = some g2 →
      (∀ h ∈ gws, ∀ h2, accept h = some h2 → key h2 = key g2 → h2 = g2) →
      mapLoop key accept gws m (key g2) = some g2 := by
  intro gws
  induction gws with
  | nil => intro m g g2 hg; exact absurd hg (List.not_mem_nil _)
  | cons gw rest ih =>
    intro m g g2 hg hacc huniq
    rcases List.mem_cons.mp hg with heq | hmem
    · subst heq
      simp only [mapLoop, hacc]
      refine mapLoop_stable key accept rest _ _ _
        (fun h hh => huniq h (List.mem_cons_of_mem _ hh)) ?_
      simp [mapInsert]
    · simp only [mapLoop]
      cases hacc2 : accept gw with
      | none => exact ih m g g2 hmem hacc (fun h hh => huniq h (List.mem_cons_of_mem _ hh))
      | some h2 =>
        exact ih _ g g2 hmem hacc (fun h hh => huniq h (List.mem_cons_of_mem _ hh))

theorem mapLoop_sound (key : Gateway → EUI64) (accept : Gateway → Option Gateway) :
    ∀ (gws : List Gateway) (m : GwMap) (k : EUI64) (g2 : Gateway),
      mapLoop key accept gws m k = some g2 →
      (∃ g ∈ gws, accept g = some g2 ∧ key g2 = k) ∨ m k = some g2 := by
  intro gws
  induction gws with
  | nil => intro m k g2 h; exact Or.inr h
  | cons gw rest ih =>
    intro m k g2 h
    simp only [mapLoop] at h
    cases hacc : accept gw with
    | none =>
      rw [hacc] at h
      rcases ih m k g2 h with ⟨g, hg, hrest⟩ | hm
      · exact Or.inl ⟨g, List.mem_cons_of_mem _ hg, hrest⟩
      · exact Or.inr hm
    | some h2 =>
      rw [hacc] at h
      rcases ih _ k g2 h with ⟨g, hg, hrest⟩ | hm
      · exact Or.inl ⟨g, List.mem_cons_of_mem _ hg, hrest⟩
      · simp only [mapInsert] at hm
        by_cases hkey : k = key h2
        · rw [if_pos hkey] at hm
          have : h2 = g2 := by injection hm
          subst this
          exact Or.inl ⟨gw, List.mem_cons_self _ _, hacc, hkey.symm⟩
        · rw [if_neg hkey] at hm
          exact Or.inr hm

/-! ## Claim theorems -/

/-! ## Lemmas: NetID byte extraction -/

theorem mod32_div65536_mod256 (v : Nat) :
    v % 4294967296 / 65536 % 256 = v / 65536 % 256 := by
  have h1 : (4294967296 : Nat) = 65536 * 65536 := by norm_num
  rw [h1, Nat.mod_mul_right_div_self, Nat.mod_mod_of_dvd _ (by norm_num)]

theorem mod32_div256_mod256 (v : Nat) :
    v % 4294967296 / 256 % 256 = v / 256 % 256 := by
  have h1 : (4294967296 : Nat) = 256 * 16777216 := by norm_num
  rw [h1, Nat.mod_mul_right_div_self, Nat.mod_mod_of_dvd _ (by norm_num)]

theorem mod32_mod256 (v : Nat) : v % 4294967296 % 256 = v % 256 :=
  Nat.mod_mod_of_dvd _ (by norm_num)

theorem chainNetID_bytes (v : Nat) :
    chainNetID v = [v / 65536 % 256, v / 256 % 256, v % 256] := by
  simp only [chainNetID, putUint32BE, List.getD]
  simp [mod32_div65536_mod256, mod32_div256_mod256, mod32_mod256]

theorem httpNetID_bytes (v : Nat) :
    httpNetID v = [v % 256, v / 256 % 256, v / 65536 % 256] := by
  simp only [httpNetID, putUint32LE, List.getD]
  simp [mod32_div65536_mod256, mod32_div256_mod256, mod32_mod256]

/-- C3: the two NetID decodings do NOT agree: for raw network id 1 the
on-chain (big-endian) decoding yields the NetID bytes [0, 0, 1] while the
HTTP (little-endian) decoding yields [1, 0, 0]. -/
theorem c3_netid_decodings_differ_at_one :
    chainNetID 1 = [0, 0, 1] ∧ httpNetID 1 = [1, 0, 0] ∧ chainNetID 1 ≠ httpNetID 1 := by
  decide

/-- C3 (amended): for every raw 32-bit network id, the HTTP source's NetID
decoding is the byte reversal of the on-chain source's decoding; the two
decodings agree exactly when the id's low-order byte equals its third
byte (bits 16..23). -/
theorem c3_netid_reversal (v : Nat) :
    httpNetID v = (chainNetID v).reverse
  ∧ (chainNetID v = httpNetID v ↔ v % 256 = v / 65536 % 256) := by
  rw [chainNetID_bytes, httpNetID_bytes]
  refine ⟨by simp, ?_⟩
  constructor
  · intro h
    simp only [List.cons.injEq] at h
    exact h.1.symm
  · intro h
    simp [h]

/-- C9: the derived network gateway id is the first eight bytes of the
SHA-256 digest of the parity-stripped compressed public key; the registry
id `Gateway.ID` is the parity-stripped compressed key copied into a
32-byte value; and `CompressedPubKeyBytes` re-adds the discarded parity
byte as the hard-coded constant 0x02 — for every compression function,
hence regardless of the key's actual parity byte. -/
theorem c9_identity_derivation (sha256Sum : List Nat → List Nat)
    (CompressPubkey : Nat → List Nat) (FromECDSAPub : Nat → List Nat)
    (publicKeyOf : Nat → Nat) (lid : EUI64) (priv : Nat) :
    CalculateNetworkGatewayID sha256Sum CompressPubkey publicKeyOf priv
      = specNetworkID sha256Sum CompressPubkey publicKeyOf priv
  ∧ (NewGateway sha256Sum CompressPubkey FromECDSAPub publicKeyOf lid priv).ID
      = specRegistryID CompressPubkey publicKeyOf priv
  ∧ (NewGateway sha256Sum CompressPubkey FromECDSAPub publicKeyOf lid priv).CompressedPubKeyBytes
      = 2 :: (CompressPubkey (publicKeyOf priv)).drop 1 := by
  refine ⟨?_, ?_, rfl⟩
  · simp [CalculateNetworkGatewayID, specNetworkID, BytesToGatewayID,
      CalculateCompressedPublicKeyBytes, List.take_take]
  · simp [Gateway.ID, NewGateway, setBytes32, specRegistryID,
      CalculateCompressedPublicKeyBytes]

/-- C10: for the same private key, `GenerateNewGateway` leaves
`PublicKeyBytes` unset (nil) while `NewGateway` populates it with the
uncompressed public-key encoding; every other field of the two
constructors agrees. -/
theorem c10_generate_vs_new (sha256Sum : List Nat → List Nat)
    (CompressPubkey : Nat → List Nat) (FromECDSAPub : Nat → List Nat)
    (publicKeyOf : Nat → Nat) (lid : EUI64) (priv : Nat) :
    (GenerateNewGateway sha256Sum CompressPubkey publicKeyOf lid priv).PublicKeyBytes = none
  ∧ (NewGateway sha256Sum CompressPubkey FromECDSAPub publicKeyOf lid priv).PublicKeyBytes
      = some (CalculatePublicKeyBytes FromECDSAPub (publicKeyOf priv))
  ∧ (GenerateNewGateway sha256Sum CompressPubkey publicKeyOf lid priv).LocalGatewayID
      = (NewGateway sha256Sum CompressPubkey FromECDSAPub publicKeyOf lid priv).LocalGatewayID
  ∧ (GenerateNewGateway sha256Sum CompressPubkey publicKeyOf lid priv).NetworkGatewayID
      = (NewGateway sha256Sum CompressPubkey FromECDSAPub publicKeyOf lid priv).NetworkGatewayID
  ∧ (GenerateNewGateway sha256Sum CompressPubkey publicKeyOf lid priv).PrivateKey
      = (NewGateway sha256Sum CompressPubkey FromECDSAPub publicKeyOf lid priv).PrivateKey
  ∧ (GenerateNewGateway sha256Sum CompressPubkey publicKeyOf lid priv).PublicKey
      = (NewGateway sha256Sum CompressPubkey FromECDSAPub publicKeyOf lid priv).PublicKey
  ∧ (GenerateNewGateway sha256Sum CompressPubkey publicKeyOf lid priv).CompressedPublicKeyBytes
      = (NewGateway sha256Sum CompressPubkey FromECDSAPub publicKeyOf lid priv).CompressedPublicKeyBytes
  ∧ (GenerateNewGateway sha256Sum CompressPubkey publicKeyOf lid priv).Owner
      = (NewGateway sha256Sum CompressPubkey FromECDSAPub publicKeyOf lid priv).Owner :=
  ⟨rfl, rfl, rfl, rfl, rfl, rfl, rfl, rfl⟩

/-- C8: a snapshot whose declared chain id differs from the configured
chain id is rejected with an error and yields no router list. -/
theorem c8_snapshot_wrong_chain_rejected (cfg : Config) (snapshot : Snapshot)
    (h : snapshot.ChainID ≠ cfg.ChainID) :
    fetchRoutersFromThingsIXAPI cfg snapshot
      = Except.error "router snapshot from wrong chain" := by
  simp [fetchRoutersFromThingsIXAPI, h]

theorem c8_snapshot_wrong_chain_rejected_witness :
    (Snapshot.mk 0 137 []).ChainID ≠ (Config.mk 1).ChainID
  ∧ fetchRoutersFromThingsIXAPI (Config.mk 1) (Snapshot.mk 0 137 [])
      = Except.error "router snapshot from wrong chain" :=
  ⟨by decide, c8_snapshot_wrong_chain_rejected (Config.mk 1) (Snapshot.mk 0 137 []) (by decide)⟩

/-- C4 fails on the code: when the RPC node is reachable (dial succeeds)
and reports chain id 5 while the configuration expects 137, `dialRPCNode`
returns the mismatch error but never calls `client.Close()` on that path,
so the client handle is left open. -/
theorem c4_mismatch_leaves_client_open :
    (dialRPCNode (Config.mk 137) (RPCNode.mk true (some 5))).result
      = Except.error "RPC node connected to wrong chain"
  ∧ (dialRPCNode (Config.mk 137) (RPCNode.mk true (some 5))).clientOpen = true :=
  ⟨rfl, rfl⟩

/-- C1 fails on the code: with 60 registered routers the paging loop's
guard `i*pageSize < routerCount` (with `i` already advancing by
`pageSize`) stops after the first page, returning 50 routers instead of
60. -/
theorem c1_pagination_drops_entries :
    chainRegistry60.length = 60
  ∧ (fetchRoutersFromChain chainRegistry60).length = 50 := by
  constructor
  · decide
  · rw [fetchRoutersFromChain]
    rw [fetchLoop]
    rw [fetchLoop]
    simp [chainRegistry60, pageSize, RoutersPaged]

/-- C2 fails on the code: the chain id matches and exactly one of the five
router ids is malformed, yet the refresh returns (without error) a slice
of length five whose third slot is the nil zero value left behind by
`continue` in a slice pre-allocated with `make([]*Router, len(...))`;
only four slots hold routers. -/
theorem c2_malformed_id_leaves_nil_slot :
    fetchRoutersFromThingsIXAPI (Config.mk 137) snapshot5
      = Except.ok (snapshot5.Routers.map convertSnapshotRouter)
  ∧ (snapshot5.Routers.map convertSnapshotRouter).length = 5
  ∧ (snapshot5.Routers.map convertSnapshotRouter).get? 2 = some none
  ∧ ((snapshot5.Routers.map convertSnapshotRouter).filterMap id).length = 4 := by
  refine ⟨by simp [fetchRoutersFromThingsIXAPI, snapshot5], by decide, by decide, by decide⟩

/-! ## Lemmas: admission functions -/

theorem acceptOf_preserve (registry : GatewayRegistry) (h h2 : Gateway)
    (hacc : acceptOf registry h = some h2) :
    h2.LocalGatewayID = h.LocalGatewayID ∧ h2.NetworkGatewayID = h.NetworkGatewayID := by
  simp only [acceptOf] at hacc
  cases hrg : registry h.ID with
  | none => rw [hrg] at hacc; exact absurd hacc (by simp)
  | some rgw =>
    rw [hrg] at hacc
    by_cases hg : rgw.AntennaGain = 0
    · simp [hg] at hacc
    · simp only [hg, ne_eq, not_false_eq_true, if_true] at hacc
      cases hacc
      exact ⟨rfl, rfl⟩

theorem accept_uniq (accept : Gateway → Option Gateway) (key : Gateway → EUI64)
    (store : List Gateway)
    (hinj : ∀ x ∈ store, ∀ y ∈ store, key x = key y → x = y)
    (hpres : ∀ h h2, accept h = some h2 → key h2 = key h)
    {g g2 : Gateway} (hg : g ∈ store) (hacc : accept g = some g2) :
    ∀ h ∈ store, ∀ h2, accept h = some h2 → key h2 = key g2 → h2 = g2 := by
  intro h hh h2 hacc2 hkey
  have e1 : key h2 = key h := hpres h h2 hacc2
  have e2 : key g2 = key g := hpres g g2 hacc
  have hhg : h = g := hinj h hh g hg (by rw [← e1, hkey, e2])
  subst hhg
  rw [hacc] at hacc2
  exact (Option.some.inj hacc2).symm

/-- C5 fails as stated: two distinct store gateways may share a network id
(the §9 parity defect makes such collisions reachable), and the second
insertion overwrites the first, so one inventory gateway is missing from
the by-network-id map. -/
theorem c5_open_policy_counterexample :
    (onboardedAndRegisteredGateways none [gwA, gwB]).2 gwA.NetworkGatewayID = some gwB
  ∧ gwB ≠ gwA
  ∧ (onboardedAndRegisteredGateways none [gwA, gwB]).2 gwA.NetworkGatewayID ≠ some gwA := by
  decide

/-- C5 (amended): under the open trust policy, for every inventory whose
local ids and network ids are pairwise distinct, the two returned maps
contain exactly every inventory gateway — each gateway under its localID
in the first map and its networkID in the second — and nothing else. -/
theorem c5_open_policy_exact (store : List Gateway)
    (hL : (store.map Gateway.LocalGatewayID).Nodup)
    (hN : (store.map Gateway.NetworkGatewayID).Nodup) :
    (∀ g ∈ store,
        (onboardedAndRegisteredGateways none store).1 g.LocalGatewayID = some g
      ∧ (onboardedAndRegisteredGateways none store).2 g.NetworkGatewayID = some g)
  ∧ (∀ k g, (onboardedAndRegisteredGateways none store).1 k = some g →
        g ∈ store ∧ g.LocalGatewayID = k)
  ∧ (∀ k g, (onboardedAndRegisteredGateways none store).2 k = some g →
        g ∈ store ∧ g.NetworkGatewayID = k) := by
  have hinjL := List.inj_on_of_nodup_map hL
  have hinjN := List.inj_on_of_nodup_map hN
  simp only [onboardedAndRegisteredGateways, openLoop_fst, openLoop_snd]
  refine ⟨?_, ?_, ?_⟩
  · intro g hg
    constructor
    · exact mapLoop_mem _ some store emptyGwMap g g hg rfl
        (accept_uniq some _ store (fun x hx y hy e => hinjL hx hy e)
          (fun h h2 e => by cases e; rfl) hg rfl)
    · exact mapLoop_mem _ some store emptyGwMap g g hg rfl
        (accept_uniq some _ store (fun x hx y hy e => hinjN hx hy e)
          (fun h h2 e => by cases e; rfl) hg rfl)
  · intro k g h
    rcases mapLoop_sound _ some store emptyGwMap k g h with ⟨g0, hg0, hacc, hkey⟩ | hm
    · cases hacc; exact ⟨hg0, hkey⟩
    · exact absurd hm (by simp [emptyGwMap])
  · intro k g h
    rcases mapLoop_sound _ some store emptyGwMap k g h with ⟨g0, hg0, hacc, hkey⟩ | hm
    · cases hacc; exact ⟨hg0, hkey⟩
    · exact absurd hm (by simp [emptyGwMap])

theorem c5_open_policy_exact_witness :
    (([gwA, gwE].map Gateway.LocalGatewayID).Nodup
  ∧ ([gwA, gwE].map Gateway.NetworkGatewayID).Nodup)
  ∧ ((∀ g ∈ [gwA, gwE],
        (onboardedAndRegisteredGateways none [gwA, gwE]).1 g.LocalGatewayID = some g
      ∧ (onboardedAndRegisteredGateways none [gwA, gwE]).2 g.NetworkGatewayID = some g)
  ∧ (∀ k g, (onboardedAndRegisteredGateways none [gwA, gwE]).1 k = some g →
        g ∈ [gwA, gwE] ∧ g.LocalGatewayID = k)
  ∧ (∀ k g, (onboardedAndRegisteredGateways none [gwA, gwE]).2 k = some g →
        g ∈ [gwA, gwE] ∧ g.NetworkGatewayID = k)) :=
  ⟨⟨by decide, by decide⟩, c5_open_policy_exact [gwA, gwE] (by decide) (by decide)⟩

/-- C6 fails as stated: under the registry policy with two admitted
gateways sharing a network id, the owner-updated gwA is a value of the
by-local-id map but is not present in the by-network-id map under its
network id (it was overwritten by gwB), so the two maps disagree. -/
theorem c6_maps_agreement_counterexample :
    (acceptOnlyOnboardedAndRegistryGateways regAllGain5 [gwA, gwB]).1 gwA.LocalGatewayID
      = some { gwA with Owner := 9 }
  ∧ (acceptOnlyOnboardedAndRegistryGateways regAllGain5 [gwA, gwB]).2
      ({ gwA with Owner := 9 } : Gateway).NetworkGatewayID
      ≠ some { gwA with Owner := 9 } := by
  decide

/-- C6 (amended): under either policy, for every store whose local ids and
network ids are pairwise distinct, the two maps agree: every gateway value
of one map sits under its own identifier and is present in the other map
under its other identifier. -/
theorem c6_trust_maps_agree (registryAddress : Option GatewayRegistry)
    (store : List Gateway)
    (hL : (store.map Gateway.LocalGatewayID).Nodup)
    (hN : (store.map Gateway.NetworkGatewayID).Nodup) :
    (∀ k g, (onboardedAndRegisteredGateways registryAddress store).1 k = some g →
        k = g.LocalGatewayID
      ∧ (onboardedAndRegisteredGateways registryAddress store).2 g.NetworkGatewayID = some g)
  ∧ (∀ k g, (onboardedAndRegisteredGateways registryAddress store).2 k = some g →
        k = g.NetworkGatewayID
      ∧ (onboardedAndRegisteredGateways registryAddress store).1 g.LocalGatewayID = some g) := by
  have hinjL := List.inj_on_of_nodup_map hL
  have hinjN := List.inj_on_of_nodup_map hN
  cases registryAddress with
  | none =>
    simp only [onboardedAndRegisteredGateways, openLoop_fst, openLoop_snd]
    constructor
    · intro k g h
      rcases mapLoop_sound _ some store emptyGwMap k g h with ⟨g0, hg0, hacc, hkey⟩ | hm
      · cases hacc
        refine ⟨hkey.symm, ?_⟩
        exact mapLoop_mem _ some store emptyGwMap g g hg0 rfl
          (accept_uniq some _ store (fun x hx y hy e => hinjN hx hy e)
            (fun h h2 e => by cases e; rfl) hg0 rfl)
      · exact absurd hm (by simp [emptyGwMap])
    · intro k g h
      rcases mapLoop_sound _ some store emptyGwMap k g h with ⟨g0, hg0, hacc, hkey⟩ | hm
      · cases hacc
        refine ⟨hkey.symm, ?_⟩
        exact mapLoop_mem _ some store emptyGwMap g g hg0 rfl
          (accept_uniq some _ store (fun x hx y hy e => hinjL hx hy e)
            (fun h h2 e => by cases e; rfl) hg0 rfl)
      · exact absurd hm (by simp [emptyGwMap])
  | some registry =>
    simp only [onboardedAndRegisteredGateways, acceptOnlyOnboardedAndRegistryGateways,
      acceptLoop_fst, acceptLoop_snd]
    constructor
    · intro k g h
      rcases mapLoop_sound _ _ store emptyGwMap k g h with ⟨g0, hg0, hacc, hkey⟩ | hm
      · refine ⟨hkey.symm, ?_⟩
        exact mapLoop_mem _ _ store emptyGwMap g0 g hg0 hacc
          (accept_uniq (acceptOf registry) _ store (fun x hx y hy e => hinjN hx hy e)
            (fun h h2 e => (acceptOf_preserve registry h h2 e).2) hg0 hacc)
      · exact absurd hm (by simp [emptyGwMap])
    · intro k g h
      rcases mapLoop_sound _ _ store emptyGwMap k g h with ⟨g0, hg0, hacc, hkey⟩ | hm
      · refine ⟨hkey.symm, ?_⟩
        exact mapLoop_mem _ _ store emptyGwMap g0 g hg0 hacc
          (accept_uniq (acceptOf registry) _ store (fun x hx y hy e => hinjL hx hy e)
            (fun h h2 e => (acceptOf_preserve registry h h2 e).1) hg0 hacc)
      · exact absurd hm (by simp [emptyGwMap])

theorem c6_trust_maps_agree_witness :
    (([gwA, gwE].map Gateway.LocalGatewayID).Nodup
  ∧ ([gwA, gwE].map Gateway.NetworkGatewayID).Nodup)
  ∧ ((∀ k g, (onboardedAndRegisteredGateways (some regAllGain5) [gwA, gwE]).1 k = some g →
        k = g.LocalGatewayID
      ∧ (onboardedAndRegisteredGateways (some regAllGain5) [gwA, gwE]).2 g.NetworkGatewayID = some g)
  ∧ (∀ k g, (onboardedAndRegisteredGateways (some regAllGain5) [gwA, gwE]).2 k = some g →
        k = g.NetworkGatewayID
      ∧ (onboardedAndRegisteredGateways (some regAllGain5) [gwA, gwE]).1 g.LocalGatewayID = some g)) :=
  ⟨⟨by decide, by decide⟩, c6_trust_maps_agree (some regAllGain5) [gwA, gwE] (by decide) (by decide)⟩

/-- C7 fails as stated: the registry lookup fails only for gwC and
succeeds with non-zero antenna gain for gwA and gwB, yet gwA — which
shares a network id with gwB — is not present in the by-network-id map
(gwB overwrote it), so not every other gateway survives. -/
theorem c7_lookup_failure_counterexample :
    regGain5ExceptC gwC.ID = none
  ∧ regGain5ExceptC gwA.ID = some { Owner := 9, AntennaGain := 5 }
  ∧ regGain5ExceptC gwB.ID = some { Owner := 9, AntennaGain := 5 }
  ∧ (acceptOnlyOnboardedAndRegistryGateways regGain5ExceptC [gwA, gwB, gwC]).1 gwA.LocalGatewayID
      = some { gwA with Owner := 9 }
  ∧ (acceptOnlyOnboardedAndRegistryGateways regGain5ExceptC [gwA, gwB, gwC]).2 gwA.NetworkGatewayID
      ≠ some { gwA with Owner := 9 } := by
  decide

/-- C7 (amended): under the registry policy, if the lookup fails for one
gateway G and succeeds with non-zero antenna gain for every other store
gateway, then — provided the store's local and network ids are pairwise
distinct — every gateway other than G is present in both output maps
(with the registry-reported owner copied on), and the build returns the
maps instead of aborting. -/
theorem c7_lookup_failure_isolated (registry : GatewayRegistry)
    (store : List Gateway) (G : Gateway)
    (hL : (store.map Gateway.LocalGatewayID).Nodup)
    (hN : (store.map Gateway.NetworkGatewayID).Nodup)
    (_hGfail : registry G.ID = none)
    (hOthers : ∀ g ∈ store, g ≠ G → ∃ e, registry g.ID = some e ∧ e.AntennaGain ≠ 0) :
    ∀ g ∈ store, g ≠ G → ∃ e, registry g.ID = some e
      ∧ (acceptOnlyOnboardedAndRegistryGateways registry store).1 g.LocalGatewayID
          = some { g with Owner := e.Owner }
      ∧ (acceptOnlyOnboardedAndRegistryGateways registry store).2 g.NetworkGatewayID
          = some { g with Owner := e.Owner } := by
  have hinjL := List.inj_on_of_nodup_map hL
  have hinjN := List.inj_on_of_nodup_map hN
  intro g hg hne
  obtain ⟨e, he, hgain⟩ := hOthers g hg hne
  have hacc : acceptOf registry g = some { g with Owner := e.Owner } := by
    simp [acceptOf, he, hgain]
  refine ⟨e, he, ?_, ?_⟩
  · simp only [acceptOnlyOnboardedAndRegistryGateways, acceptLoop_fst]
    exact mapLoop_mem _ _ store emptyGwMap g _ hg hacc
      (accept_uniq (acceptOf registry) _ store (fun x hx y hy h2 => hinjL hx hy h2)
        (fun h h2 e2 => (acceptOf_preserve registry h h2 e2).1) hg hacc)
  · simp only [acceptOnlyOnboardedAndRegistryGateways, acceptLoop_snd]
    exact mapLoop_mem _ _ store emptyGwMap g _ hg hacc
      (accept_uniq (acceptOf registry) _ store (fun x hx y hy h2 => hinjN hx hy h2)
        (fun h h2 e2 => (acceptOf_preserve registry h h2 e2).2) hg hacc)

theorem c7_lookup_failure_isolated_witness :
    (([gwA, gwE, gwC].map Gateway.LocalGatewayID).Nodup
  ∧ ([gwA, gwE, gwC].map Gateway.NetworkGatewayID).Nodup
  ∧ regGain5ExceptC gwC.ID = none
  ∧ (∀ g ∈ [gwA, gwE, gwC], g ≠ gwC →
        ∃ e, regGain5ExceptC g.ID = some e ∧ e.AntennaGain ≠ 0))
  ∧ (∀ g ∈ [gwA, gwE, gwC], g ≠ gwC → ∃ e, regGain5ExceptC g.ID = some e
      ∧ (acceptOnlyOnboardedAndRegistryGateways regGain5ExceptC [gwA, gwE, gwC]).1 g.LocalGatewayID
          = some { g with Owner := e.Owner }
      ∧ (acceptOnlyOnboardedAndRegistryGateways regGain5ExceptC [gwA, gwE, gwC]).2 g.NetworkGatewayID
          = some { g with Owner := e.Owner }) := by
  have hO : ∀ g ∈ [gwA, gwE, gwC], g ≠ gwC →
      ∃ e, regGain5ExceptC g.ID = some e ∧ e.AntennaGain ≠ 0 := by
    intro g hg hne
    rcases List.mem_cons.mp hg with rfl | hg2
    · exact ⟨{ Owner := 9, AntennaGain := 5 }, by decide, by decide⟩
    rcases List.mem_cons.mp hg2 with rfl | hg3
    · exact ⟨{ Owner := 9, AntennaGain := 5 }, by decide, by decide⟩
    rcases List.mem_cons.mp hg3 with rfl | hg4
    · exact absurd rfl hne
    · exact absurd hg4 (List.not_mem_nil g)
  exact ⟨⟨by decide, by decide, by decide, hO⟩,
    c7_lookup_failure_isolated regGain5ExceptC [gwA, gwE, gwC] gwC
      (by decide) (by decide) (by decide) hO⟩
